import Mathlib

/-!
Shallow embedding of the VEML7700 ambient-light-sensor driver repository:
the adaptive exposure controller (`VEML7700AutoGain`), the table-driven
conversion/optimization variant of `Adafruit_VEML7700` (`convertToLux`,
`optimizeParams`), and the full-convergence reader `luxAutoSensor`.

Machine integers (uint8_t / uint16_t register codes and raw counts) are
embedded as `Nat`; all values stay far below any overflow boundary on the
paths modelled here.  Floating-point arithmetic (`float` / `double`) is
embedded as exact rational arithmetic over `ℚ`: every constant in the
source is a decimal literal, and every scale factor is a power of two, so
the rational model is the ideal-arithmetic reading of the same formulas.
Hardware register access is made explicit: the device-visible register
fields and the locally tracked copies are separate components of the
state, and every register write is also recorded in an event trace.
-/

/-! ## Register-code constants (Adafruit_VEML7700.h) -/

def VEML7700_GAIN_1 : ℕ := 0x00
def VEML7700_GAIN_2 : ℕ := 0x01
def VEML7700_GAIN_1_8 : ℕ := 0x02
def VEML7700_GAIN_1_4 : ℕ := 0x03

def VEML7700_IT_100MS : ℕ := 0x00
def VEML7700_IT_200MS : ℕ := 0x01
def VEML7700_IT_400MS : ℕ := 0x02
def VEML7700_IT_800MS : ℕ := 0x03
def VEML7700_IT_50MS : ℕ := 0x08
def VEML7700_IT_25MS : ℕ := 0x0C

/-- VEML7700_GAIN_MIN from VEML7700AutoGain.h. -/
def VEML7700_GAIN_MIN : ℕ := VEML7700_GAIN_1_8

/-- VEML7700_GAIN_MAX from VEML7700AutoGain.h. -/
def VEML7700_GAIN_MAX : ℕ := VEML7700_GAIN_2

/-- VEML7700_IT_MAX from VEML7700AutoGain.h. -/
def VEML7700_IT_MAX : ℕ := VEML7700_IT_800MS

/-- VEML7700_IT_MIN from VEML7700AutoGain.h. -/
def VEML7700_IT_MIN : ℕ := VEML7700_IT_25MS

/-- The four documented gain codes (the values a 2-bit register field and
the driver's gain API use). -/
def validGain (g : ℕ) : Prop :=
  g = VEML7700_GAIN_1 ∨ g = VEML7700_GAIN_2 ∨ g = VEML7700_GAIN_1_8 ∨
    g = VEML7700_GAIN_1_4

/-- The six documented integration-time codes (sparse in the 4-bit field). -/
def validIt (it : ℕ) : Prop :=
  it = VEML7700_IT_100MS ∨ it = VEML7700_IT_200MS ∨ it = VEML7700_IT_400MS ∨
    it = VEML7700_IT_800MS ∨ it = VEML7700_IT_50MS ∨ it = VEML7700_IT_25MS

instance : DecidablePred validGain := fun g => by
  unfold validGain; infer_instance

instance : DecidablePred validIt := fun it => by
  unfold validIt; infer_instance

/-! ## Single-step helpers (VEML7700AutoGain.cpp): prevIt, nextIt,
prevGain, nextGain.  Each switch falls through to `return ~0`, i.e. 255
as a uint8_t. -/

/-- VEML7700AutoGain::prevIt — integration time one step below, 255 when
invalid or already at 25 ms. -/
def prevIt (it : ℕ) : ℕ :=
  if it = VEML7700_IT_50MS then VEML7700_IT_25MS
  else if it = VEML7700_IT_100MS then VEML7700_IT_50MS
  else if it = VEML7700_IT_200MS then VEML7700_IT_100MS
  else if it = VEML7700_IT_400MS then VEML7700_IT_200MS
  else if it = VEML7700_IT_800MS then VEML7700_IT_400MS
  else 255

/-- VEML7700AutoGain::nextIt — integration time one step above, 255 when
invalid or already at 800 ms. -/
def nextIt (it : ℕ) : ℕ :=
  if it = VEML7700_IT_25MS then VEML7700_IT_50MS
  else if it = VEML7700_IT_50MS then VEML7700_IT_100MS
  else if it = VEML7700_IT_100MS then VEML7700_IT_200MS
  else if it = VEML7700_IT_200MS then VEML7700_IT_400MS
  else if it = VEML7700_IT_400MS then VEML7700_IT_800MS
  else 255

/-- VEML7700AutoGain::prevGain — gain one step below, 255 when invalid or
already at 1/8x. -/
def prevGain (gain : ℕ) : ℕ :=
  if gain = VEML7700_GAIN_1_4 then VEML7700_GAIN_1_8
  else if gain = VEML7700_GAIN_1 then VEML7700_GAIN_1_4
  else if gain = VEML7700_GAIN_2 then VEML7700_GAIN_1
  else 255

/-- VEML7700AutoGain::nextGain — gain one step above, 255 when invalid or
already at 2x. -/
def nextGain (gain : ℕ) : ℕ :=
  if gain = VEML7700_GAIN_1_8 then VEML7700_GAIN_1_4
  else if gain = VEML7700_GAIN_1_4 then VEML7700_GAIN_1
  else if gain = VEML7700_GAIN_1 then VEML7700_GAIN_2
  else 255

/-- VEML7700AutoGain::getIntegrationMs — current integration time in
milliseconds (0 for an unknown code). -/
def getIntegrationMs (veml_it : ℕ) : ℕ :=
  if veml_it = VEML7700_IT_100MS then 100
  else if veml_it = VEML7700_IT_200MS then 200
  else if veml_it = VEML7700_IT_400MS then 400
  else if veml_it = VEML7700_IT_800MS then 800
  else if veml_it = VEML7700_IT_50MS then 50
  else if veml_it = VEML7700_IT_25MS then 25
  else 0

/-- C10: the exposure step functions are mutually inverse on valid
non-extreme codes and return the sentinel 255 on every invalid uint8 code
and when stepping past the extreme setting. -/
theorem stepFunctions_inverse_and_total :
    (∀ it, validIt it → it ≠ VEML7700_IT_800MS → prevIt (nextIt it) = it) ∧
    (∀ it, validIt it → it ≠ VEML7700_IT_25MS → nextIt (prevIt it) = it) ∧
    (∀ g, validGain g → g ≠ VEML7700_GAIN_2 → prevGain (nextGain g) = g) ∧
    (∀ g, validGain g → g ≠ VEML7700_GAIN_1_8 → nextGain (prevGain g) = g) ∧
    (∀ n, n < 256 → ¬ validIt n → prevIt n = 255 ∧ nextIt n = 255) ∧
    (∀ n, n < 256 → ¬ validGain n → prevGain n = 255 ∧ nextGain n = 255) ∧
    nextIt VEML7700_IT_800MS = 255 ∧ prevIt VEML7700_IT_25MS = 255 ∧
    nextGain VEML7700_GAIN_2 = 255 ∧ prevGain VEML7700_GAIN_1_8 = 255 := by
  refine ⟨?_, ?_, ?_, ?_, ?_, ?_, rfl, rfl, rfl, rfl⟩
  · intro it h hne
    rcases h with rfl | rfl | rfl | rfl | rfl | rfl
    · rfl
    · rfl
    · rfl
    · exact absurd rfl hne
    · rfl
    · rfl
  · intro it h hne
    rcases h with rfl | rfl | rfl | rfl | rfl | rfl
    · rfl
    · rfl
    · rfl
    · rfl
    · rfl
    · exact absurd rfl hne
  · intro g h hne
    rcases h with rfl | rfl | rfl | rfl
    · rfl
    · exact absurd rfl hne
    · rfl
    · rfl
  · intro g h hne
    rcases h with rfl | rfl | rfl | rfl
    · rfl
    · rfl
    · exact absurd rfl hne
    · rfl
  · set_option maxRecDepth 4000 in decide
  · set_option maxRecDepth 4000 in decide

/-- Witness for C10: the stepping round-trip at the concrete code 100 ms,
obtained from the theorem itself. -/
theorem stepFunctions_inverse_and_total_witness :
    prevIt (nextIt VEML7700_IT_100MS) = VEML7700_IT_100MS :=
  stepFunctions_inverse_and_total.1 VEML7700_IT_100MS (by decide) (by decide)

/-! ## Calibration math -/

/-- VEML7700AutoGain::lazyNormalize — scale an ALS count to the gain=1x,
integration=100ms basis, switching on the locally tracked gain and
integration-time codes.  Unknown codes fall through both switches and
leave the value unchanged, as in the source. -/
def lazyNormalize (veml_gain veml_it : ℕ) (value : ℚ) : ℚ :=
  let v1 :=
    if veml_gain = VEML7700_GAIN_2 then value / 2
    else if veml_gain = VEML7700_GAIN_1_4 then value * 4
    else if veml_gain = VEML7700_GAIN_1_8 then value * 8
    else value
  if veml_it = VEML7700_IT_25MS then v1 * 4
  else if veml_it = VEML7700_IT_50MS then v1 * 2
  else if veml_it = VEML7700_IT_200MS then v1 / 2
  else if veml_it = VEML7700_IT_400MS then v1 / 4
  else if veml_it = VEML7700_IT_800MS then v1 / 8
  else v1

/-- Adafruit_VEML7700::normalize_resolution — identical switch chain to
lazyNormalize, but in the base driver it reads the register gain and
integration-time fields instead of the tracked copies; here both appear
as the explicit code arguments. -/
def normalize_resolution (g it : ℕ) (value : ℚ) : ℚ :=
  let v1 :=
    if g = VEML7700_GAIN_2 then value / 2
    else if g = VEML7700_GAIN_1_4 then value * 4
    else if g = VEML7700_GAIN_1_8 then value * 8
    else value
  if it = VEML7700_IT_25MS then v1 * 4
  else if it = VEML7700_IT_50MS then v1 * 2
  else if it = VEML7700_IT_200MS then v1 / 2
  else if it = VEML7700_IT_400MS then v1 / 4
  else if it = VEML7700_IT_800MS then v1 / 8
  else v1

/-- The gainCoeff table of the MojaveTom driver variant, indexed by the
raw gain code: GAIN_1=0 -> 1.0, GAIN_2=1 -> 0.5, GAIN_1_8=2 -> 8.0,
GAIN_1_4=3 -> 4.0. -/
def gainCoeff : List ℚ := [1, 1/2, 8, 4]

/-- The integrationTimeCoeff table, indexed by the raw integration-time
code (16 entries, unused codes hold 1.0). -/
def integrationTimeCoeff : List ℚ :=
  [1, 1/2, 1/4, 1/8, 1, 1, 1, 1, 2, 1, 1, 1, 4, 1, 1, 1]

/-- The gainIndex table: raw gain code to index into gainVals. -/
def gainIndex : List ℕ := [2, 3, 0, 1]

/-- The integrationTimeIndex table: raw integration-time code to index
into integrationTimeVals. -/
def integrationTimeIndex : List ℕ :=
  [2, 3, 4, 5, 0, 0, 0, 0, 1, 0, 0, 0, 0, 0, 0, 0]

/-- The quartic non-linearity correction in the Horner arrangement used
by Adafruit_VEML7700::convertToLux and readLuxNormalized. -/
def nonlinCorrectHorner (x : ℚ) : ℚ :=
  (((60135 / 10 ^ 17 * x - 93924 / 10 ^ 13) * x + 81488 / 10 ^ 9) * x +
      10023 / 10 ^ 4) * x

/-- The same quartic in the pow-based arrangement used by
VEML7700AutoGain::readLuxAuto. -/
def nonlinCorrectPow (x : ℚ) : ℚ :=
  60135 / 10 ^ 17 * x ^ 4 - 93924 / 10 ^ 13 * x ^ 3 + 81488 / 10 ^ 9 * x ^ 2 +
    10023 / 10 ^ 4 * x

/-- The conversion sub-expression of Adafruit_VEML7700::convertToLux:
value * gainCoeff[g] * integrationTimeCoeff[i] * 0.0576. -/
def convertToLuxRaw (g i : ℕ) (value : ℕ) : ℚ :=
  (value : ℚ) * gainCoeff.getD g 0 * integrationTimeCoeff.getD i 0 *
    (576 / 10 ^ 4)

/-- Adafruit_VEML7700::convertToLux — table-based lux conversion with the
non-linearity correction at (gain 1/8x, 25 ms). -/
def convertToLux (g i : ℕ) (value : ℕ) : ℚ :=
  let ret := convertToLuxRaw g i value
  if g = VEML7700_GAIN_1_8 ∧ i = VEML7700_IT_25MS then nonlinCorrectHorner ret
  else ret

/-- Adafruit_VEML7700::readLux — normalize_resolution of the ALS count
times 0.0576; the count read from hardware is the explicit argument. -/
def readLux (g it : ℕ) (count : ℕ) : ℚ :=
  normalize_resolution g it (count : ℚ) * (576 / 10 ^ 4)

/-- Adafruit_VEML7700::readLuxNormalized — readLux with the Horner-form
non-linearity correction at (gain 1/8x, 25 ms). -/
def readLuxNormalized (g it : ℕ) (count : ℕ) : ℚ :=
  let lux := readLux g it count
  if g = VEML7700_GAIN_1_8 ∧ it = VEML7700_IT_25MS then nonlinCorrectHorner lux
  else lux

/-- Modelled from the spec (for refinement comparison only): the gain
coefficient table of section 3, 1/8x -> 8.0, 1/4x -> 4.0, 1x -> 1.0,
2x -> 0.5, keyed by the register gain code. -/
def gainCoeffSpec (g : ℕ) : ℚ :=
  if g = VEML7700_GAIN_1_8 then 8
  else if g = VEML7700_GAIN_1_4 then 4
  else if g = VEML7700_GAIN_1 then 1
  else 1 / 2

/-- Modelled from the spec (for refinement comparison only): the
integration-time coefficient table of section 3, 25ms -> 4.0, 50ms -> 2.0,
100ms -> 1.0, 200ms -> 0.5, 400ms -> 0.25, 800ms -> 0.125. -/
def itCoeffSpec (it : ℕ) : ℚ :=
  if it = VEML7700_IT_25MS then 4
  else if it = VEML7700_IT_50MS then 2
  else if it = VEML7700_IT_100MS then 1
  else if it = VEML7700_IT_200MS then 1 / 2
  else if it = VEML7700_IT_400MS then 1 / 4
  else 1 / 8

/-- Modelled from the spec (for refinement comparison only): toLux of
section 4.1, raw times both coefficients times the constant 0.0576. -/
def toLux (raw : ℕ) (g it : ℕ) : ℚ :=
  (raw : ℚ) * gainCoeffSpec g * itCoeffSpec it * (576 / 10 ^ 4)

/-! ## Exposure state, register access and the single-step controller -/

/-- Classification of an adaptive reading (enum VemlResultType). -/
inductive VemlResultType where
  | GOOD
  | TOO_LOW
  | TOO_HIGH
deriving DecidableEq, Repr

export VemlResultType (GOOD TOO_LOW TOO_HIGH)

/-- Register-access events, recorded in program order: shutdown-bit
writes (enable) and the two ALS_CONFIG field writes the controller
performs. -/
inductive Ev where
  | enable (b : Bool)
  | writeIt (it : ℕ)
  | writeGain (g : ℕ)
deriving DecidableEq, Repr

/-- Combined device and driver state: the locally tracked exposure codes
of VEML7700AutoGain (veml_gain, veml_it), the hardware ALS_CONFIG gain
and integration-time fields, the shutdown bit (true = sensor off), and
the auto-gain thresholds. -/
structure SensorState where
  veml_gain : ℕ
  veml_it : ℕ
  reg_gain : ℕ
  reg_it : ℕ
  shutdown : Bool
  low_threshold : ℕ
  high_threshold : ℕ
deriving DecidableEq, Repr

/-- Adafruit_VEML7700::enable — writes the negated flag to the shutdown
bit. -/
def enableOp (s : SensorState) (e : Bool) : SensorState × List Ev :=
  ({ s with shutdown := !e }, [Ev.enable e])

/-- Adafruit_VEML7700::setIntegrationTime — writes the register field
only. -/
def baseSetIntegrationTime (s : SensorState) (it : ℕ) : SensorState × List Ev :=
  ({ s with reg_it := it }, [Ev.writeIt it])

/-- Adafruit_VEML7700::setGain — writes the register field only. -/
def baseSetGain (s : SensorState) (g : ℕ) : SensorState × List Ev :=
  ({ s with reg_gain := g }, [Ev.writeGain g])

/-- VEML7700AutoGain::setIntegrationTime — records the code locally, then
calls the base-class setter. -/
def setIntegrationTime (s : SensorState) (it : ℕ) : SensorState × List Ev :=
  baseSetIntegrationTime { s with veml_it := it } it

/-- VEML7700AutoGain::setGain — records the code locally, then calls the
base-class setter. -/
def setGain (s : SensorState) (g : ℕ) : SensorState × List Ev :=
  baseSetGain { s with veml_gain := g } g

/-- VEML7700AutoGain::readLuxAuto — one measurement (the count argument
stands for readALS()), lux conversion with optional correction, and at
most one sensitivity adjustment bracketed by enable(false)/enable(true).
Returns the lux value, the classification, the successor state, and the
register-access trace. -/
def readLuxAuto (s : SensorState) (count : ℕ) (apply_correction : Bool) :
    ℚ × VemlResultType × SensorState × List Ev :=
  let lux0 := lazyNormalize s.veml_gain s.veml_it (count : ℚ) * (576 / 10 ^ 4)
  let lux :=
    if apply_correction ∧ s.veml_gain = VEML7700_GAIN_1_8 ∧
        s.veml_it = VEML7700_IT_25MS then
      nonlinCorrectPow lux0
    else lux0
  if count < s.low_threshold then
    if getIntegrationMs s.veml_it < 100 then
      let (s1, t1) := enableOp s false
      let (s2, t2) := setIntegrationTime s1 (nextIt s.veml_it)
      let (s3, t3) := enableOp s2 true
      (lux, TOO_LOW, s3, t1 ++ t2 ++ t3)
    else if s.veml_gain ≠ VEML7700_GAIN_MAX then
      let (s1, t1) := enableOp s false
      let (s2, t2) := setGain s1 (nextGain s.veml_gain)
      let (s3, t3) := enableOp s2 true
      (lux, TOO_LOW, s3, t1 ++ t2 ++ t3)
    else if s.veml_it ≠ VEML7700_IT_MAX then
      let (s1, t1) := enableOp s false
      let (s2, t2) := setIntegrationTime s1 (nextIt s.veml_it)
      let (s3, t3) := enableOp s2 true
      (lux, TOO_LOW, s3, t1 ++ t2 ++ t3)
    else (lux, TOO_LOW, s, [])
  else if count > s.high_threshold then
    if getIntegrationMs s.veml_it > 100 then
      let (s1, t1) := enableOp s false
      let (s2, t2) := setIntegrationTime s1 (prevIt s.veml_it)
      let (s3, t3) := enableOp s2 true
      (lux, TOO_HIGH, s3, t1 ++ t2 ++ t3)
    else if s.veml_gain ≠ VEML7700_GAIN_MIN then
      let (s1, t1) := enableOp s false
      let (s2, t2) := setGain s1 (prevGain s.veml_gain)
      let (s3, t3) := enableOp s2 true
      (lux, TOO_HIGH, s3, t1 ++ t2 ++ t3)
    else if s.veml_it ≠ VEML7700_IT_MIN then
      let (s1, t1) := enableOp s false
      let (s2, t2) := setIntegrationTime s1 (prevIt s.veml_it)
      let (s3, t3) := enableOp s2 true
      (lux, TOO_HIGH, s3, t1 ++ t2 ++ t3)
    else (lux, TOO_HIGH, s, [])
  else (lux, GOOD, s, [])

/-- The gainVals table of Adafruit_VEML7700::optimizeParams: gain codes
in ascending sensitivity order. -/
def gainVals : List ℕ :=
  [VEML7700_GAIN_1_8, VEML7700_GAIN_1_4, VEML7700_GAIN_1, VEML7700_GAIN_2]

/-- The integrationTimeVals table of optimizeParams: integration-time
codes in ascending duration order. -/
def integrationTimeVals : List ℕ :=
  [VEML7700_IT_25MS, VEML7700_IT_50MS, VEML7700_IT_100MS, VEML7700_IT_200MS,
    VEML7700_IT_400MS, VEML7700_IT_800MS]

/-- Adafruit_VEML7700::optimizeParams — one table-index adjustment step.
The register gain and integration-time codes are the g and i arguments
(the source reads them via getGain()/getIntegrationTime()); the result is
the pair of codes written back (unchanged codes when nothing changed) and
the somethingChanged flag. -/
def optimizeParams (g i raw lowThresh hiThresh : ℕ) : ℕ × ℕ × Bool :=
  let gIndex := gainIndex.getD g 0
  let iIndex := integrationTimeIndex.getD i 0
  let step : ℕ × ℕ × Bool :=
    if raw ≤ lowThresh then
      if gIndex < 3 then (gIndex + 1, iIndex, true)
      else if iIndex < 5 then (gIndex, iIndex + 1, true)
      else (gIndex, iIndex, false)
    else if raw > hiThresh then
      if iIndex > 2 then (gIndex, iIndex - 1, true)
      else if gIndex > 0 then (gIndex - 1, iIndex, true)
      else if iIndex > 0 then (gIndex, iIndex - 1, true)
      else (gIndex, iIndex, false)
    else (gIndex, iIndex, false)
  if step.2.2 then
    (gainVals.getD step.1 0, integrationTimeVals.getD step.2.1 0, true)
  else (g, i, false)

/-! ## Helper lemmas shared by several claims -/

/-- All three conversion paths agree with the coefficient-product formula
on valid codes. -/
lemma conversions_eq_toLux (raw g it : ℕ) (hg : validGain g)
    (hit : validIt it) :
    lazyNormalize g it (raw : ℚ) * (576 / 10 ^ 4) = toLux raw g it ∧
    normalize_resolution g it (raw : ℚ) * (576 / 10 ^ 4) = toLux raw g it ∧
    convertToLuxRaw g it raw = toLux raw g it := by
  rcases hg with rfl | rfl | rfl | rfl <;>
    rcases hit with rfl | rfl | rfl | rfl | rfl | rfl <;>
      refine ⟨?_, ?_, ?_⟩ <;>
        · norm_num [lazyNormalize, normalize_resolution, convertToLuxRaw,
            toLux, gainCoeffSpec, itCoeffSpec, gainCoeff, integrationTimeCoeff,
            VEML7700_GAIN_1, VEML7700_GAIN_2, VEML7700_GAIN_1_8,
            VEML7700_GAIN_1_4, VEML7700_IT_100MS, VEML7700_IT_200MS,
            VEML7700_IT_400MS, VEML7700_IT_800MS, VEML7700_IT_50MS,
            VEML7700_IT_25MS]
          try ring

/-- The two arrangements of the quartic correction denote the same
polynomial. -/
lemma nonlinCorrect_pow_eq_horner (x : ℚ) :
    nonlinCorrectPow x = nonlinCorrectHorner x := by
  unfold nonlinCorrectPow nonlinCorrectHorner
  ring

/-- The lux value returned by readLuxAuto, independent of which
adjustment branch runs. -/
lemma readLuxAuto_val (s : SensorState) (count : ℕ) (ac : Bool) :
    (readLuxAuto s count ac).1 =
      if ac ∧ s.veml_gain = VEML7700_GAIN_1_8 ∧
          s.veml_it = VEML7700_IT_25MS then
        nonlinCorrectPow
          (lazyNormalize s.veml_gain s.veml_it (count : ℚ) * (576 / 10 ^ 4))
      else lazyNormalize s.veml_gain s.veml_it (count : ℚ) * (576 / 10 ^ 4) := by
  unfold readLuxAuto
  split_ifs <;> rfl

/-- C1: for every raw count in [0, 65535] and valid (gain,
integration-time) pair, both the lazyNormalize-based conversion of
readLuxAuto and the table-based conversion of convertToLux equal raw
times the gain coefficient times the integration coefficient times
0.0576. -/
theorem luxConversion_is_coefficient_product (raw g it : ℕ)
    (_hraw : raw ≤ 65535) (hg : validGain g) (hit : validIt it) :
    lazyNormalize g it (raw : ℚ) * (576 / 10 ^ 4) = toLux raw g it ∧
    convertToLuxRaw g it raw = toLux raw g it := by
  obtain ⟨h1, _, h3⟩ := conversions_eq_toLux raw g it hg hit
  exact ⟨h1, h3⟩

/-- Witness for C1: both conversion paths at raw 12345, gain 1/8x,
integration 25 ms. -/
theorem luxConversion_is_coefficient_product_witness :
    lazyNormalize VEML7700_GAIN_1_8 VEML7700_IT_25MS (12345 : ℚ) *
        (576 / 10 ^ 4) = toLux 12345 VEML7700_GAIN_1_8 VEML7700_IT_25MS ∧
    convertToLuxRaw VEML7700_GAIN_1_8 VEML7700_IT_25MS 12345 =
      toLux 12345 VEML7700_GAIN_1_8 VEML7700_IT_25MS :=
  luxConversion_is_coefficient_product 12345 VEML7700_GAIN_1_8
    VEML7700_IT_25MS (by norm_num) (by decide) (by decide)

/-- C2: on every raw count and valid pair, the calibrated-lux paths
(convertToLux, readLuxNormalized, and readLuxAuto with its default
apply_correction = true) apply the quartic correction if and only if the
pair is (gain 1/8x, 25 ms), and otherwise return the converted value
unchanged. -/
theorem calibratedLux_correction_iff_most_sensitive (s : SensorState)
    (count : ℕ) (hg : validGain s.veml_gain) (hit : validIt s.veml_it) :
    ((readLuxAuto s count true).1 =
      if s.veml_gain = VEML7700_GAIN_1_8 ∧ s.veml_it = VEML7700_IT_25MS then
        nonlinCorrectHorner (toLux count s.veml_gain s.veml_it)
      else toLux count s.veml_gain s.veml_it) ∧
    (convertToLux s.veml_gain s.veml_it count =
      if s.veml_gain = VEML7700_GAIN_1_8 ∧ s.veml_it = VEML7700_IT_25MS then
        nonlinCorrectHorner (toLux count s.veml_gain s.veml_it)
      else toLux count s.veml_gain s.veml_it) ∧
    (readLuxNormalized s.veml_gain s.veml_it count =
      if s.veml_gain = VEML7700_GAIN_1_8 ∧ s.veml_it = VEML7700_IT_25MS then
        nonlinCorrectHorner (toLux count s.veml_gain s.veml_it)
      else toLux count s.veml_gain s.veml_it) := by
  obtain ⟨h1, h2, h3⟩ :=
    conversions_eq_toLux count s.veml_gain s.veml_it hg hit
  refine ⟨?_, ?_, ?_⟩
  · rw [readLuxAuto_val]
    by_cases hc : s.veml_gain = VEML7700_GAIN_1_8 ∧
        s.veml_it = VEML7700_IT_25MS
    · rw [if_pos ⟨rfl, hc.1, hc.2⟩, if_pos hc, h1,
        nonlinCorrect_pow_eq_horner]
    · rw [if_neg (fun h => hc ⟨h.2.1, h.2.2⟩), if_neg hc, h1]
  · unfold convertToLux
    by_cases hc : s.veml_gain = VEML7700_GAIN_1_8 ∧
        s.veml_it = VEML7700_IT_25MS
    · rw [if_pos hc, if_pos hc, h3]
    · rw [if_neg hc, if_neg hc, h3]
  · unfold readLuxNormalized readLux
    by_cases hc : s.veml_gain = VEML7700_GAIN_1_8 ∧
        s.veml_it = VEML7700_IT_25MS
    · rw [if_pos hc, if_pos hc, h2]
    · rw [if_neg hc, if_neg hc, h2]

/-- Witness for C2: the correction is applied at (1/8x, 25 ms) with raw
count 6553, per the theorem. -/
theorem calibratedLux_correction_iff_most_sensitive_witness :
    convertToLux VEML7700_GAIN_1_8 VEML7700_IT_25MS 6553 =
      nonlinCorrectHorner (toLux 6553 VEML7700_GAIN_1_8 VEML7700_IT_25MS) := by
  have h :=
    (calibratedLux_correction_iff_most_sensitive
      { veml_gain := VEML7700_GAIN_1_8, veml_it := VEML7700_IT_25MS,
        reg_gain := VEML7700_GAIN_1_8, reg_it := VEML7700_IT_25MS,
        shutdown := false, low_threshold := 100, high_threshold := 10000 }
      6553 (by decide) (by decide)).2.1
  simpa using h

/-- The post-state of readLuxAuto: at most one exposure setting stepped,
with the tracked copy and the register field written together and the
sensor re-enabled. -/
lemma readLuxAuto_state (s : SensorState) (count : ℕ) (ac : Bool) :
    (readLuxAuto s count ac).2.2.1 =
      if count < s.low_threshold then
        if getIntegrationMs s.veml_it < 100 then
          { s with
              veml_it := nextIt s.veml_it
              reg_it := nextIt s.veml_it
              shutdown := false }
        else if s.veml_gain ≠ VEML7700_GAIN_MAX then
          { s with
              veml_gain := nextGain s.veml_gain
              reg_gain := nextGain s.veml_gain
              shutdown := false }
        else if s.veml_it ≠ VEML7700_IT_MAX then
          { s with
              veml_it := nextIt s.veml_it
              reg_it := nextIt s.veml_it
              shutdown := false }
        else s
      else if count > s.high_threshold then
        if getIntegrationMs s.veml_it > 100 then
          { s with
              veml_it := prevIt s.veml_it
              reg_it := prevIt s.veml_it
              shutdown := false }
        else if s.veml_gain ≠ VEML7700_GAIN_MIN then
          { s with
              veml_gain := prevGain s.veml_gain
              reg_gain := prevGain s.veml_gain
              shutdown := false }
        else if s.veml_it ≠ VEML7700_IT_MIN then
          { s with
              veml_it := prevIt s.veml_it
              reg_it := prevIt s.veml_it
              shutdown := false }
        else s
      else s := by
  simp only [readLuxAuto, enableOp, setIntegrationTime, setGain,
    baseSetIntegrationTime, baseSetGain]
  split_ifs <;> rfl

/-- The classification of readLuxAuto as a function of the thresholds. -/
lemma readLuxAuto_type (s : SensorState) (count : ℕ) (ac : Bool) :
    (readLuxAuto s count ac).2.1 =
      if count < s.low_threshold then TOO_LOW
      else if count > s.high_threshold then TOO_HIGH
      else GOOD := by
  simp only [readLuxAuto, enableOp, setIntegrationTime, setGain,
    baseSetIntegrationTime, baseSetGain]
  split_ifs <;> rfl

/-- The register-access trace of readLuxAuto: empty, or one field write
bracketed by a disable and a re-enable. -/
lemma readLuxAuto_trace (s : SensorState) (count : ℕ) (ac : Bool) :
    (readLuxAuto s count ac).2.2.2 =
      if count < s.low_threshold then
        if getIntegrationMs s.veml_it < 100 then
          [Ev.enable false, Ev.writeIt (nextIt s.veml_it), Ev.enable true]
        else if s.veml_gain ≠ VEML7700_GAIN_MAX then
          [Ev.enable false, Ev.writeGain (nextGain s.veml_gain), Ev.enable true]
        else if s.veml_it ≠ VEML7700_IT_MAX then
          [Ev.enable false, Ev.writeIt (nextIt s.veml_it), Ev.enable true]
        else []
      else if count > s.high_threshold then
        if getIntegrationMs s.veml_it > 100 then
          [Ev.enable false, Ev.writeIt (prevIt s.veml_it), Ev.enable true]
        else if s.veml_gain ≠ VEML7700_GAIN_MIN then
          [Ev.enable false, Ev.writeGain (prevGain s.veml_gain), Ev.enable true]
        else if s.veml_it ≠ VEML7700_IT_MIN then
          [Ev.enable false, Ev.writeIt (prevIt s.veml_it), Ev.enable true]
        else []
      else [] := by
  simp only [readLuxAuto, enableOp, setIntegrationTime, setGain,
    baseSetIntegrationTime, baseSetGain]
  split_ifs <;> rfl

/-- A concrete controller state used in witnesses and counterexamples:
gain 1x, integration 100 ms, sensor enabled, the default auto-gain
thresholds 100/10000 set by VEML7700AutoGain::begin. -/
def sampleState : SensorState :=
  { veml_gain := VEML7700_GAIN_1
    veml_it := VEML7700_IT_100MS
    reg_gain := VEML7700_GAIN_1
    reg_it := VEML7700_IT_100MS
    shutdown := false
    low_threshold := 100
    high_threshold := 10000 }

/-- C7: a raw count inside the threshold band is classified GOOD and the
whole exposure state — tracked codes, register fields and the enabled
flag — is returned exactly as it was, with no register access at all. -/
theorem goodBand_leaves_state_unchanged (s : SensorState) (count : ℕ)
    (ac : Bool) (h1 : s.low_threshold ≤ count)
    (h2 : count ≤ s.high_threshold) :
    (readLuxAuto s count ac).2.1 = GOOD ∧
    (readLuxAuto s count ac).2.2.1 = s ∧
    (readLuxAuto s count ac).2.2.2 = [] := by
  refine ⟨?_, ?_, ?_⟩
  · rw [readLuxAuto_type, if_neg (not_lt.mpr h1), if_neg (not_lt.mpr h2)]
  · rw [readLuxAuto_state, if_neg (not_lt.mpr h1), if_neg (not_lt.mpr h2)]
  · rw [readLuxAuto_trace, if_neg (not_lt.mpr h1), if_neg (not_lt.mpr h2)]

/-- Witness for C7 at count 500 inside the default band 100..10000. -/
theorem goodBand_leaves_state_unchanged_witness :
    (readLuxAuto sampleState 500 true).2.1 = GOOD ∧
    (readLuxAuto sampleState 500 true).2.2.1 = sampleState ∧
    (readLuxAuto sampleState 500 true).2.2.2 = [] :=
  goodBand_leaves_state_unchanged sampleState 500 true (by decide) (by decide)

/-- C6: one invocation of readLuxAuto changes at most one of the two
settings (each setting meaning its tracked code together with its
register field), and an already-extreme state is not moved further. -/
theorem singleStep_changes_at_most_one (s : SensorState) (count : ℕ)
    (ac : Bool) :
    (((readLuxAuto s count ac).2.2.1.veml_gain = s.veml_gain ∧
      (readLuxAuto s count ac).2.2.1.reg_gain = s.reg_gain) ∨
     ((readLuxAuto s count ac).2.2.1.veml_it = s.veml_it ∧
      (readLuxAuto s count ac).2.2.1.reg_it = s.reg_it)) ∧
    (s.veml_gain = VEML7700_GAIN_MAX → s.veml_it = VEML7700_IT_MAX →
      count < s.low_threshold → (readLuxAuto s count ac).2.2.1 = s) ∧
    (s.veml_gain = VEML7700_GAIN_MIN → s.veml_it = VEML7700_IT_MIN →
      (readLuxAuto s count ac).2.1 = TOO_HIGH →
      (readLuxAuto s count ac).2.2.1 = s) := by
  rw [readLuxAuto_state]
  refine ⟨?_, ?_, ?_⟩
  · split_ifs <;> simp
  · intro hg hit hc
    rw [if_pos hc, hg, hit]
    norm_num [getIntegrationMs, VEML7700_GAIN_MAX, VEML7700_IT_MAX,
      VEML7700_GAIN_2, VEML7700_IT_100MS, VEML7700_IT_200MS,
      VEML7700_IT_400MS, VEML7700_IT_800MS, VEML7700_IT_50MS,
      VEML7700_IT_25MS]
  · intro hg hit hty
    rw [readLuxAuto_type] at hty
    by_cases hlow : count < s.low_threshold
    · rw [if_pos hlow] at hty
      exact absurd hty (by decide)
    · by_cases hhigh : count > s.high_threshold
      · rw [if_neg hlow, if_pos hhigh, hg, hit]
        norm_num [getIntegrationMs, VEML7700_GAIN_MIN, VEML7700_IT_MIN,
          VEML7700_GAIN_1_8, VEML7700_IT_100MS, VEML7700_IT_200MS,
          VEML7700_IT_400MS, VEML7700_IT_800MS, VEML7700_IT_50MS,
          VEML7700_IT_25MS]
      · rw [if_neg hlow, if_neg hhigh] at hty
        exact absurd hty (by decide)

/-- The most sensitive reachable state: gain 2x, integration 800 ms. -/
def maxSensitivityState : SensorState :=
  { veml_gain := VEML7700_GAIN_2
    veml_it := VEML7700_IT_800MS
    reg_gain := VEML7700_GAIN_2
    reg_it := VEML7700_IT_800MS
    shutdown := false
    low_threshold := 100
    high_threshold := 10000 }

/-- Witness for C6: at the most sensitive state a too-dark count leaves
the state untouched, by the theorem itself. -/
theorem singleStep_changes_at_most_one_witness :
    (readLuxAuto maxSensitivityState 0 true).2.2.1 = maxSensitivityState :=
  (singleStep_changes_at_most_one maxSensitivityState 0 true).2.1 rfl rfl
    (by decide)

/-- Counterexample for C5: with the default thresholds, a raw count equal
to the low threshold is classified GOOD by readLuxAuto, not TOO_LOW as
the claim (raw ≤ low gives TOO_LOW) requires. -/
theorem classification_at_low_boundary_cex :
    sampleState.low_threshold = 100 ∧
    (readLuxAuto sampleState 100 true).2.1 = GOOD ∧
    (readLuxAuto sampleState 100 true).2.1 ≠ TOO_LOW := by
  refine ⟨rfl, ?_, ?_⟩
  · rw [readLuxAuto_type]
    norm_num [sampleState]
  · rw [readLuxAuto_type]
    norm_num [sampleState]
    decide

/-- C5 (amended): readLuxAuto classifies TOO_LOW exactly when the raw
count is strictly below the low threshold, TOO_HIGH exactly when it is
strictly above the high threshold, and GOOD exactly when it lies in the
inclusive band [low, high]. -/
theorem classification_matches_thresholds (s : SensorState) (count : ℕ)
    (ac : Bool) (hlh : s.low_threshold < s.high_threshold) :
    ((readLuxAuto s count ac).2.1 = TOO_LOW ↔ count < s.low_threshold) ∧
    ((readLuxAuto s count ac).2.1 = TOO_HIGH ↔ s.high_threshold < count) ∧
    ((readLuxAuto s count ac).2.1 = GOOD ↔
      (s.low_threshold ≤ count ∧ count ≤ s.high_threshold)) := by
  rw [readLuxAuto_type]
  split_ifs with h1 h2
  all_goals refine ⟨?_, ?_, ?_⟩
  all_goals simp_all
  all_goals omega

/-- Witness for C5 at count 50 below the default low threshold 100. -/
theorem classification_matches_thresholds_witness :
    (readLuxAuto sampleState 50 true).2.1 = TOO_LOW :=
  ((classification_matches_thresholds sampleState 50 true
    (by decide)).1).mpr (by decide)

/-- Counterexample for C3: the claim fails in both cited code paths.  At
(gain 1/8x, it 25 ms) with raw 50 at or below the low threshold 100,
optimizeParams raises the gain (to 1/4x) and leaves the integration time
at 25 ms, although 25 ms < 100 ms means the claim requires an
integration-time step; and readLuxAuto at a raw count equal to the low
threshold performs no step at all and reports GOOD, not TOO_LOW. -/
theorem increaseSensitivity_claim_cex :
    optimizeParams VEML7700_GAIN_1_8 VEML7700_IT_25MS 50 100 10000 =
      (VEML7700_GAIN_1_4, VEML7700_IT_25MS, true) ∧
    getIntegrationMs VEML7700_IT_25MS < 100 ∧
    (readLuxAuto sampleState 100 true).2.2.1 = sampleState ∧
    (readLuxAuto sampleState 100 true).2.1 = GOOD := by
  refine ⟨by decide, by decide, ?_, ?_⟩
  · rw [readLuxAuto_state]
    norm_num [sampleState]
  · rw [readLuxAuto_type]
    norm_num [sampleState]

/-- C3 (amended): for the single-step adaptive read, every raw count
strictly below the low threshold reports TOO_LOW and steps the state as
claimed (integration time first while below 100 ms, then gain up to 2x,
then integration time up to 800 ms, no change at (2x, 800 ms)); the
table-based optimizeParams, triggered at raw at-or-below the low
threshold, instead raises gain first and only then integration time. -/
theorem increaseSensitivity_step (s : SensorState) (count : ℕ) (ac : Bool)
    (hc : count < s.low_threshold) :
    ((readLuxAuto s count ac).2.1 = TOO_LOW ∧
     (getIntegrationMs s.veml_it < 100 →
       (readLuxAuto s count ac).2.2.1.veml_it = nextIt s.veml_it ∧
       (readLuxAuto s count ac).2.2.1.veml_gain = s.veml_gain) ∧
     (100 ≤ getIntegrationMs s.veml_it → s.veml_gain ≠ VEML7700_GAIN_MAX →
       (readLuxAuto s count ac).2.2.1.veml_gain = nextGain s.veml_gain ∧
       (readLuxAuto s count ac).2.2.1.veml_it = s.veml_it) ∧
     (100 ≤ getIntegrationMs s.veml_it → s.veml_gain = VEML7700_GAIN_MAX →
       s.veml_it ≠ VEML7700_IT_MAX →
       (readLuxAuto s count ac).2.2.1.veml_it = nextIt s.veml_it ∧
       (readLuxAuto s count ac).2.2.1.veml_gain = s.veml_gain) ∧
     (s.veml_gain = VEML7700_GAIN_MAX → s.veml_it = VEML7700_IT_MAX →
       (readLuxAuto s count ac).2.2.1 = s)) ∧
    (∀ g i raw low high, validGain g → validIt i → raw ≤ low →
      (g ≠ VEML7700_GAIN_2 →
        optimizeParams g i raw low high = (nextGain g, i, true)) ∧
      (g = VEML7700_GAIN_2 → i ≠ VEML7700_IT_800MS →
        optimizeParams g i raw low high = (g, nextIt i, true)) ∧
      (g = VEML7700_GAIN_2 → i = VEML7700_IT_800MS →
        optimizeParams g i raw low high = (g, i, false))) := by
  constructor
  · rw [readLuxAuto_type, readLuxAuto_state, if_pos hc, if_pos hc]
    refine ⟨rfl, ?_, ?_, ?_, ?_⟩
    · intro hms
      rw [if_pos hms]
      exact ⟨rfl, rfl⟩
    · intro hms hgmax
      rw [if_neg (not_lt.mpr hms), if_pos hgmax]
      exact ⟨rfl, rfl⟩
    · intro hms hgmax hitmax
      rw [if_neg (not_lt.mpr hms), if_neg (not_not_intro hgmax),
        if_pos hitmax]
      exact ⟨rfl, rfl⟩
    · intro hgmax hitmax
      rw [hgmax, hitmax]
      norm_num [getIntegrationMs, VEML7700_GAIN_MAX, VEML7700_IT_MAX,
        VEML7700_GAIN_2, VEML7700_IT_100MS, VEML7700_IT_200MS,
        VEML7700_IT_400MS, VEML7700_IT_800MS, VEML7700_IT_50MS,
        VEML7700_IT_25MS]
  · intro g i raw low high hg hi hraw
    rcases hg with rfl | rfl | rfl | rfl <;>
      rcases hi with rfl | rfl | rfl | rfl | rfl | rfl <;>
        refine ⟨fun h1 => ?_, fun h1 h2 => ?_, fun h1 h2 => ?_⟩ <;>
          simp_all [optimizeParams, gainIndex, integrationTimeIndex,
            gainVals, integrationTimeVals, nextGain, nextIt,
            VEML7700_GAIN_1, VEML7700_GAIN_2, VEML7700_GAIN_1_8,
            VEML7700_GAIN_1_4, VEML7700_IT_100MS, VEML7700_IT_200MS,
            VEML7700_IT_400MS, VEML7700_IT_800MS, VEML7700_IT_50MS,
            VEML7700_IT_25MS]

/-- Witness for C3: the concrete scenario of the spec, raw 50 below the
low threshold at (gain 1/8x, 100 ms): gain is stepped to 1/4x and the
integration time stays, per the amended theorem. -/
theorem increaseSensitivity_step_witness :
    (readLuxAuto
        { veml_gain := VEML7700_GAIN_1_8
          veml_it := VEML7700_IT_100MS
          reg_gain := VEML7700_GAIN_1_8
          reg_it := VEML7700_IT_100MS
          shutdown := false
          low_threshold := 100
          high_threshold := 10000 } 50 true).2.2.1.veml_gain =
      VEML7700_GAIN_1_4 :=
  ((increaseSensitivity_step _ 50 true (by decide)).1.2.2.1 (by decide)
    (by decide)).1

/-- C4: for every raw count strictly above the high threshold both
decrease-sensitivity paths behave as claimed: integration time is lowered
one step while above 100 ms, then gain down to 1/8x, then integration
time down to 25 ms, and at (1/8x, 25 ms) the state is unchanged while
readLuxAuto still reports TOO_HIGH. -/
theorem decreaseSensitivity_step (s : SensorState) (count : ℕ) (ac : Bool)
    (hnl : ¬ count < s.low_threshold) (hc : count > s.high_threshold) :
    ((readLuxAuto s count ac).2.1 = TOO_HIGH ∧
     (100 < getIntegrationMs s.veml_it →
       (readLuxAuto s count ac).2.2.1.veml_it = prevIt s.veml_it ∧
       (readLuxAuto s count ac).2.2.1.veml_gain = s.veml_gain) ∧
     (getIntegrationMs s.veml_it ≤ 100 → s.veml_gain ≠ VEML7700_GAIN_MIN →
       (readLuxAuto s count ac).2.2.1.veml_gain = prevGain s.veml_gain ∧
       (readLuxAuto s count ac).2.2.1.veml_it = s.veml_it) ∧
     (getIntegrationMs s.veml_it ≤ 100 → s.veml_gain = VEML7700_GAIN_MIN →
       s.veml_it ≠ VEML7700_IT_MIN →
       (readLuxAuto s count ac).2.2.1.veml_it = prevIt s.veml_it ∧
       (readLuxAuto s count ac).2.2.1.veml_gain = s.veml_gain) ∧
     (s.veml_gain = VEML7700_GAIN_MIN → s.veml_it = VEML7700_IT_MIN →
       (readLuxAuto s count ac).2.2.1 = s)) ∧
    (∀ g i raw low high, validGain g → validIt i → raw > high → ¬ raw ≤ low →
      (100 < getIntegrationMs i →
        optimizeParams g i raw low high = (g, prevIt i, true)) ∧
      (getIntegrationMs i ≤ 100 → g ≠ VEML7700_GAIN_1_8 →
        optimizeParams g i raw low high = (prevGain g, i, true)) ∧
      (getIntegrationMs i ≤ 100 → g = VEML7700_GAIN_1_8 →
        i ≠ VEML7700_IT_25MS →
        optimizeParams g i raw low high = (g, prevIt i, true)) ∧
      (g = VEML7700_GAIN_1_8 → i = VEML7700_IT_25MS →
        optimizeParams g i raw low high = (g, i, false))) := by
  constructor
  · rw [readLuxAuto_type, readLuxAuto_state, if_neg hnl, if_neg hnl,
      if_pos hc, if_pos hc]
    refine ⟨rfl, ?_, ?_, ?_, ?_⟩
    · intro hms
      rw [if_pos hms]
      exact ⟨rfl, rfl⟩
    · intro hms hgmin
      rw [if_neg (not_lt.mpr hms), if_pos hgmin]
      exact ⟨rfl, rfl⟩
    · intro hms hgmin hitmin
      rw [if_neg (not_lt.mpr hms), if_neg (not_not_intro hgmin),
        if_pos hitmin]
      exact ⟨rfl, rfl⟩
    · intro hgmin hitmin
      rw [hgmin, hitmin]
      norm_num [getIntegrationMs, VEML7700_GAIN_MIN, VEML7700_IT_MIN,
        VEML7700_GAIN_1_8, VEML7700_IT_100MS, VEML7700_IT_200MS,
        VEML7700_IT_400MS, VEML7700_IT_800MS, VEML7700_IT_50MS,
        VEML7700_IT_25MS]
  · intro g i raw low high hg hi hraw hnlow
    rcases hg with rfl | rfl | rfl | rfl <;>
      rcases hi with rfl | rfl | rfl | rfl | rfl | rfl <;>
        refine ⟨fun h1 => ?_, fun h1 h2 => ?_, fun h1 h2 h3 => ?_,
          fun h1 h2 => ?_⟩ <;>
          simp_all [optimizeParams, if_neg hnlow, if_pos hraw, gainIndex,
            integrationTimeIndex, gainVals, integrationTimeVals, prevGain,
            prevIt, getIntegrationMs, VEML7700_GAIN_1, VEML7700_GAIN_2,
            VEML7700_GAIN_1_8, VEML7700_GAIN_1_4, VEML7700_IT_100MS,
            VEML7700_IT_200MS, VEML7700_IT_400MS, VEML7700_IT_800MS,
            VEML7700_IT_50MS, VEML7700_IT_25MS]

/-- Witness for C4: the spec scenario raw 20000 above the high threshold
at (gain 1x, 100 ms): integration time stays and gain steps down to 1/4x,
per the theorem. -/
theorem decreaseSensitivity_step_witness :
    (readLuxAuto sampleState 20000 true).2.2.1.veml_gain =
      VEML7700_GAIN_1_4 ∧
    (readLuxAuto sampleState 20000 true).2.2.1.veml_it =
      VEML7700_IT_100MS :=
  (decreaseSensitivity_step sampleState 20000 true (by decide)
    (by decide)).1.2.2.1 (by decide) (by decide)

/-- Counterexample for C8: an invocation of the overloaded setGain
performs exactly one register-field write — no shutdown-bit write at all,
and the enabled state is untouched — so the setter itself does not
disable and re-enable the sensor. -/
theorem setGain_does_not_rearm_cex :
    (setGain sampleState VEML7700_GAIN_2).2 =
      [Ev.writeGain VEML7700_GAIN_2] ∧
    Ev.enable false ∉ (setGain sampleState VEML7700_GAIN_2).2 ∧
    (setGain sampleState VEML7700_GAIN_2).1.shutdown =
      sampleState.shutdown := by
  refine ⟨rfl, ?_, rfl⟩
  decide

/-- C8 (amended): the overloaded setters update the locally tracked code
and the register field to the same value in one call, so the two never
disagree, and they touch nothing else; the disable-write-re-enable
bracketing is done by the caller: every adjustment of readLuxAuto emits
either no register access at all or exactly a disable, one field write,
and a re-enable, in that order. -/
theorem setters_track_and_callers_bracket :
    (∀ s g, (setGain s g).1.veml_gain = g ∧ (setGain s g).1.reg_gain = g ∧
      (setGain s g).2 = [Ev.writeGain g] ∧
      (setGain s g).1.shutdown = s.shutdown ∧
      (setGain s g).1.veml_it = s.veml_it ∧
      (setGain s g).1.reg_it = s.reg_it) ∧
    (∀ s it, (setIntegrationTime s it).1.veml_it = it ∧
      (setIntegrationTime s it).1.reg_it = it ∧
      (setIntegrationTime s it).2 = [Ev.writeIt it] ∧
      (setIntegrationTime s it).1.shutdown = s.shutdown ∧
      (setIntegrationTime s it).1.veml_gain = s.veml_gain ∧
      (setIntegrationTime s it).1.reg_gain = s.reg_gain) ∧
    (∀ s count ac, (readLuxAuto s count ac).2.2.2 = [] ∨
      (∃ x, (readLuxAuto s count ac).2.2.2 =
        [Ev.enable false, Ev.writeIt x, Ev.enable true]) ∨
      (∃ x, (readLuxAuto s count ac).2.2.2 =
        [Ev.enable false, Ev.writeGain x, Ev.enable true])) := by
  refine ⟨fun s g => ⟨rfl, rfl, rfl, rfl, rfl, rfl⟩,
    fun s it => ⟨rfl, rfl, rfl, rfl, rfl, rfl⟩, fun s count ac => ?_⟩
  rw [readLuxAuto_trace]
  split_ifs <;> simp

/-! ## Full-convergence reader: Adafruit_VEML7700::luxAutoSensor -/

/-- Helper ChartGain — chart position 1..4 (ascending sensitivity) to a
gain code; positions outside the table fall to 2x as in the source
default case. -/
def ChartGain (G : ℤ) : ℕ :=
  if G = 1 then VEML7700_GAIN_1_8
  else if G = 2 then VEML7700_GAIN_1_4
  else if G = 3 then VEML7700_GAIN_1
  else VEML7700_GAIN_2

/-- Helper ChartIT — chart position -2..3 (ascending duration) to an
integration-time code, default 800 ms. -/
def ChartIT (IT : ℤ) : ℕ :=
  if IT = -2 then VEML7700_IT_25MS
  else if IT = -1 then VEML7700_IT_50MS
  else if IT = 0 then VEML7700_IT_100MS
  else if IT = 1 then VEML7700_IT_200MS
  else if IT = 2 then VEML7700_IT_400MS
  else VEML7700_IT_800MS

/-- Helper IntegrationTime — milliseconds for a chart position. -/
def IntegrationTime (IT : ℤ) : ℕ :=
  if ChartIT IT = VEML7700_IT_800MS then 800
  else if ChartIT IT = VEML7700_IT_400MS then 400
  else if ChartIT IT = VEML7700_IT_200MS then 200
  else if ChartIT IT = VEML7700_IT_100MS then 100
  else if ChartIT IT = VEML7700_IT_50MS then 50
  else 25

/-- Helper ChartResolution — lux-per-count resolution from the app-note
table: base 0.0036 scaled by the gain and integration-time factors. -/
def ChartResolution (IT G : ℤ) : ℚ :=
  let base : ℚ := 36 / 10 ^ 4
  let base1 :=
    if ChartGain G = VEML7700_GAIN_1 then base * 2
    else if ChartGain G = VEML7700_GAIN_1_4 then base * 8
    else if ChartGain G = VEML7700_GAIN_1_8 then base * 16
    else base
  if ChartIT IT = VEML7700_IT_400MS then base1 * 2
  else if ChartIT IT = VEML7700_IT_200MS then base1 * 4
  else if ChartIT IT = VEML7700_IT_100MS then base1 * 8
  else if ChartIT IT = VEML7700_IT_50MS then base1 * 16
  else if ChartIT IT = VEML7700_IT_25MS then base1 * 32
  else base1

/-- The Horner-arranged quartic the second loop of luxAutoSensor applies
to the raw ALS count directly. -/
def alsQuartic (a : ℕ) : ℚ :=
  (a : ℚ) * (10023 / 10 ^ 4 + (a : ℚ) * (81488 / 10 ^ 9 +
    (a : ℚ) * (-(93924 / 10 ^ 13) + 60135 / 10 ^ 17 * (a : ℚ))))

/-- The first (sensitivity-raising) do-while loop of luxAutoSensor.  The
als stream supplies the k-th hardware reading (each loop iteration
configures, re-arms, waits, and reads once).  The result is either the
final lux (count times the chart resolution) or, on the first-iteration
break, the current chart integration-time position; the second component
is the next unread stream index. -/
def luxLoop1 (als : ℕ → ℕ) (k : ℕ) (gain it : ℤ) (first : Bool) :
    (ℚ ⊕ ℤ) × ℕ :=
  if als k ≤ 100 then
    if gain < 4 then luxLoop1 als (k + 1) (gain + 1) it false
    else if it < 3 then luxLoop1 als (k + 1) gain (it + 1) false
    else (Sum.inl ((als k : ℚ) * ChartResolution it gain), k + 1)
  else if first then (Sum.inr it, k + 1)
  else (Sum.inl ((als k : ℚ) * ChartResolution it gain), k + 1)
termination_by (4 - gain).toNat + (3 - it).toNat
decreasing_by
  · omega
  · omega

/-- The second (saturation-avoiding) do-while loop of luxAutoSensor:
keeps shortening the integration time until the count drops below 10000
or the position passes -3, in which case -2.0 is returned. -/
def luxLoop2 (als : ℕ → ℕ) (k : ℕ) (it : ℤ) : ℚ × ℕ :=
  if als k < 10000 then (alsQuartic (als k), k + 1)
  else if it - 1 ≤ -3 then (-2, k + 1)
  else luxLoop2 als (k + 1) (it - 1)
termination_by (it + 3).toNat
decreasing_by omega

/-- Adafruit_VEML7700::luxAutoSensor with the hardware readings as an
explicit stream: the first loop starts at chart gain 1 (lowest) and
chart integration time 0 (100 ms); on its break the chart position is
decremented and the second loop runs.  Returns the result together with
the number of sensor reads consumed. -/
def luxAutoSensor (als : ℕ → ℕ) : ℚ × ℕ :=
  match luxLoop1 als 0 1 0 true with
  | (Sum.inl r, k) => (r, k)
  | (Sum.inr it, k) => luxLoop2 als k (it - 1)

/-- The chart resolution is strictly positive for every position pair. -/
lemma ChartResolution_pos (IT G : ℤ) : 0 < ChartResolution IT G := by
  unfold ChartResolution
  split_ifs <;> norm_num

/-- Structural facts about the first loop: the read index advances by at
most one position per remaining sensitivity step plus one, every
returned lux value is nonnegative, and a break can only happen on the
very first iteration, handing back the unchanged integration-time
position. -/
lemma luxLoop1_spec (als : ℕ → ℕ) (k : ℕ) (gain it : ℤ) (first : Bool) :
    ((luxLoop1 als k gain it first).2 ≤
      k + (4 - gain).toNat + (3 - it).toNat + 1) ∧
    (∀ r, (luxLoop1 als k gain it first).1 = Sum.inl r → 0 ≤ r) ∧
    (∀ x, (luxLoop1 als k gain it first).1 = Sum.inr x →
      first = true ∧ x = it ∧ (luxLoop1 als k gain it first).2 = k + 1) := by
  induction k, gain, it, first using luxLoop1.induct als with
  | case1 k gain it first ha hg ih =>
    have hstep : luxLoop1 als k gain it first =
        luxLoop1 als (k + 1) (gain + 1) it false := by
      rw [luxLoop1.eq_def]
      simp [ha, hg]
    rw [hstep]
    refine ⟨by have := ih.1; omega, ih.2.1, ?_⟩
    intro x hx
    obtain ⟨h1, -, -⟩ := ih.2.2 x hx
    exact absurd h1 (by simp)
  | case2 k gain it first ha hg hi ih =>
    have hstep : luxLoop1 als k gain it first =
        luxLoop1 als (k + 1) gain (it + 1) false := by
      rw [luxLoop1.eq_def]
      simp [ha, hg, hi]
    rw [hstep]
    refine ⟨by have := ih.1; omega, ih.2.1, ?_⟩
    intro x hx
    obtain ⟨h1, -, -⟩ := ih.2.2 x hx
    exact absurd h1 (by simp)
  | case3 k gain it first ha hg hi =>
    have hstep : luxLoop1 als k gain it first =
        (Sum.inl ((als k : ℚ) * ChartResolution it gain), k + 1) := by
      rw [luxLoop1.eq_def]
      simp [ha, hg, hi]
    rw [hstep]
    refine ⟨by omega, ?_, by simp⟩
    intro r hr
    rw [Sum.inl.injEq] at hr
    rw [← hr]
    exact mul_nonneg (Nat.cast_nonneg (als k))
      (le_of_lt (ChartResolution_pos it gain))
  | case4 k gain it ha =>
    have hstep : luxLoop1 als k gain it true = (Sum.inr it, k + 1) := by
      rw [luxLoop1.eq_def]
      simp [ha]
    rw [hstep]
    exact ⟨by omega, by simp, by simp⟩
  | case5 k gain it first ha hf =>
    have hstep : luxLoop1 als k gain it first =
        (Sum.inl ((als k : ℚ) * ChartResolution it gain), k + 1) := by
      rw [luxLoop1.eq_def]
      simp [ha, hf]
    rw [hstep]
    refine ⟨by omega, ?_, by simp⟩
    intro r hr
    rw [Sum.inl.injEq] at hr
    rw [← hr]
    exact mul_nonneg (Nat.cast_nonneg (als k))
      (le_of_lt (ChartResolution_pos it gain))

/-- The raw-count quartic of the second loop is nonnegative on the
domain the loop applies it to (count below 10000). -/
lemma alsQuartic_nonneg (a : ℕ) (h : a < 10000) : 0 ≤ alsQuartic a := by
  unfold alsQuartic
  have hx : (0 : ℚ) ≤ (a : ℚ) := Nat.cast_nonneg a
  have hb : (a : ℚ) ≤ 10000 := by
    have hlt : (a : ℚ) < 10000 := by exact_mod_cast h
    linarith
  have h2 : -(12436 / 10 ^ 9 : ℚ) ≤ 81488 / 10 ^ 9 +
      (a : ℚ) * (-(93924 / 10 ^ 13) + 60135 / 10 ^ 17 * (a : ℚ)) := by
    nlinarith [sq_nonneg ((a : ℚ))]
  have h1 : (0 : ℚ) ≤ 10023 / 10 ^ 4 + (a : ℚ) * (81488 / 10 ^ 9 +
      (a : ℚ) * (-(93924 / 10 ^ 13) + 60135 / 10 ^ 17 * (a : ℚ))) := by
    nlinarith [mul_le_mul_of_nonneg_left h2 hx]
  exact mul_nonneg hx h1

/-- Structural facts about the second loop: the result is the sentinel
-2 or a nonnegative quartic value, and the read index stays within the
remaining integration-time positions. -/
lemma luxLoop2_spec (als : ℕ → ℕ) (k : ℕ) (it : ℤ) :
    ((luxLoop2 als k it).1 = -2 ∨ 0 ≤ (luxLoop2 als k it).1) ∧
    (-2 ≤ it → (luxLoop2 als k it).2 ≤ k + (it + 3).toNat) := by
  induction k, it using luxLoop2.induct als with
  | case1 k it ha =>
    have hstep : luxLoop2 als k it = (alsQuartic (als k), k + 1) := by
      rw [luxLoop2.eq_def]
      simp [ha]
    rw [hstep]
    refine ⟨Or.inr (alsQuartic_nonneg (als k) ha), ?_⟩
    intro h
    show k + 1 ≤ k + (it + 3).toNat
    omega
  | case2 k it ha hit =>
    have hstep : luxLoop2 als k it = (-2, k + 1) := by
      rw [luxLoop2.eq_def]
      simp [ha, hit]
    rw [hstep]
    refine ⟨Or.inl rfl, ?_⟩
    intro h
    show k + 1 ≤ k + (it + 3).toNat
    omega
  | case3 k it ha hit ih =>
    have hstep : luxLoop2 als k it = luxLoop2 als (k + 1) (it - 1) := by
      rw [luxLoop2.eq_def]
      simp [ha, hit]
    rw [hstep]
    refine ⟨ih.1, ?_⟩
    intro h
    have hr := ih.2 (by omega)
    omega

/-- C9 (amended): the full-convergence reader terminates after at most 7
sensor reads for every possible sequence of raw counts, and its terminal
value is either a nonnegative lux value or the distinguishable negative
out-of-dynamic-range sentinel -2.0; at an exposure boundary it returns
the (nonnegative) lux value computed at the boundary settings rather
than a sentinel. -/
theorem luxAutoSensor_bounded_nonneg_or_sentinel (als : ℕ → ℕ) :
    (luxAutoSensor als).2 ≤ 7 ∧
    (0 ≤ (luxAutoSensor als).1 ∨ (luxAutoSensor als).1 = -2) := by
  obtain ⟨hb, hnn, hinr⟩ := luxLoop1_spec als 0 1 0 true
  unfold luxAutoSensor
  rcases hls : luxLoop1 als 0 1 0 true with ⟨fst, snd⟩
  rw [hls] at hb hnn hinr
  cases fst with
  | inl r =>
    refine ⟨?_, Or.inl (hnn r rfl)⟩
    show snd ≤ 7
    simp at hb
    omega
  | inr x =>
    obtain ⟨-, hx, hk⟩ := hinr x rfl
    subst hx
    obtain ⟨hsign, hbound⟩ := luxLoop2_spec als snd (0 - 1)
    simp at hk
    constructor
    · show (luxLoop2 als snd (0 - 1)).2 ≤ 7
      have hr := hbound (by omega)
      omega
    · show 0 ≤ (luxLoop2 als snd (0 - 1)).1 ∨
        (luxLoop2 als snd (0 - 1)).1 = -2
      rcases hsign with h | h
      · exact Or.inr h
      · exact Or.inl h

/-- Counterexample for C9: in a totally dark environment (every reading
0) the first loop climbs to the exposure boundary (max gain, max
integration time) and then returns the boundary lux value 0 — a valid
nonnegative reading, not the negative error sentinel the claim requires
once an exposure boundary is hit. -/
theorem luxAutoSensor_boundary_cex :
    (luxAutoSensor (fun _ => 0)).1 = 0 ∧
    ¬ (luxAutoSensor (fun _ => 0)).1 < 0 := by
  have s0 : luxLoop1 (fun _ => 0) 0 1 0 true =
      luxLoop1 (fun _ => 0) 1 2 0 false := by
    rw [luxLoop1.eq_def]
    norm_num
  have s1 : luxLoop1 (fun _ => 0) 1 2 0 false =
      luxLoop1 (fun _ => 0) 2 3 0 false := by
    rw [luxLoop1.eq_def]
    norm_num
  have s2 : luxLoop1 (fun _ => 0) 2 3 0 false =
      luxLoop1 (fun _ => 0) 3 4 0 false := by
    rw [luxLoop1.eq_def]
    norm_num
  have s3 : luxLoop1 (fun _ => 0) 3 4 0 false =
      luxLoop1 (fun _ => 0) 4 4 1 false := by
    rw [luxLoop1.eq_def]
    norm_num
  have s4 : luxLoop1 (fun _ => 0) 4 4 1 false =
      luxLoop1 (fun _ => 0) 5 4 2 false := by
    rw [luxLoop1.eq_def]
    norm_num
  have s5 : luxLoop1 (fun _ => 0) 5 4 2 false =
      luxLoop1 (fun _ => 0) 6 4 3 false := by
    rw [luxLoop1.eq_def]
    norm_num
  have s6 : luxLoop1 (fun _ => 0) 6 4 3 false = (Sum.inl 0, 7) := by
    rw [luxLoop1.eq_def]
    norm_num
  have e : luxAutoSensor (fun _ => 0) = (0, 7) := by
    unfold luxAutoSensor
    rw [s0, s1, s2, s3, s4, s5, s6]
  rw [e]
  norm_num
